/-
  Verification of the Warbot timer system (Python sources: models.py, bot.py,
  main.py, timer_app.py) against its natural-language specification.

  Shallow embedding conventions:
  * A timezone-aware UTC datetime is an integer number of microseconds since an
    arbitrary epoch (Python datetimes have microsecond resolution); a timedelta
    is likewise an integer number of microseconds.
  * Strings (user names, timer types) are Lean `String`s, matching the Python
    code, which compares timer types as raw strings.
  * Fallible effects (HTTP requests, Discord sends) are modelled by explicit
    outcome values threaded through the functions that consume them.
-/
import Mathlib

namespace Warbot

/-! ## Time model -/

/-- Microseconds per second: Python datetime resolution. -/
def usPerSecond : Int := 1000000

/-- Microseconds per minute. -/
def usPerMinute : Int := 60 * usPerSecond

/-- Microseconds per hour. -/
def usPerHour : Int := 60 * usPerMinute

/-- Microseconds per day. -/
def usPerDay : Int := 24 * usPerHour

/-- `timedelta(minutes=n)` in microseconds. -/
def tdMinutes (n : Int) : Int := n * usPerMinute

/-- `timedelta(hours=h, minutes=m)` in microseconds. -/
def tdHoursMinutes (h m : Int) : Int := h * usPerHour + m * usPerMinute

/-! ## Data model (models.py)

`Timer` rows store `id`, `user_name`, `timer_type`, `time_shot`.  The API's
`TimerResponse` additionally carries `pro_drop_start` / `pro_drop_end`,
computed by the two validators below; the bot's snapshot entries are the
serialized `TimerResponse` records. -/

/-- A timer record as stored and as seen by the bot (before the derived
window fields, which are computed by `calculate_pro_drop_start` /
`calculate_pro_drop_end`). `time_shot` is a UTC datetime in microseconds. -/
structure TimerR where
  id : Int
  user_name : String
  timer_type : String
  time_shot : Int
  deriving DecidableEq, Repr

/-- models.py `TimerResponse.calculate_pro_drop_start` (lines 63-82): the
`pro_drop_start` validator.  `friendly_hit` and `enemy_hit` yield
`time_shot + 3h40m`; `pro_whack` yields `time_shot + 15m`; any other
`timer_type` yields `None`. -/
def calculate_pro_drop_start (timer_type : String) (time_shot : Int) : Option Int :=
  if timer_type = "friendly_hit" then
    some (time_shot + tdHoursMinutes 3 40)
  else if timer_type = "enemy_hit" then
    some (time_shot + tdHoursMinutes 3 40)
  else if timer_type = "pro_whack" then
    some (time_shot + tdMinutes 15)
  else
    none

/-- models.py `TimerResponse.calculate_pro_drop_end` (lines 84-100): the
`pro_drop_end` validator.  `friendly_hit` and `enemy_hit` yield
`time_shot + 4h20m`; `pro_whack` yields `time_shot + 15m`; any other
`timer_type` yields `None`. -/
def calculate_pro_drop_end (timer_type : String) (time_shot : Int) : Option Int :=
  if timer_type = "friendly_hit" ∨ timer_type = "enemy_hit" then
    some (time_shot + tdHoursMinutes 4 20)
  else if timer_type = "pro_whack" then
    some (time_shot + tdMinutes 15)
  else
    none

/-! ## Claim C1, C7, C10: the window calculator -/

/-- C1: for every timestamp `occurred_at` (`time_shot`): if the event type is
`friendly_hit` (OwnEvent) or `enemy_hit` (OpponentEvent), the derived window is
`(occurred_at + 3h40m, occurred_at + 4h20m)`; if the event type is `pro_whack`
(FollowUpEvent), both `window_start` and `window_end` equal
`occurred_at + 15m`. -/
theorem c1_window_calculator (occurred_at : Int) :
    calculate_pro_drop_start "friendly_hit" occurred_at
        = some (occurred_at + tdHoursMinutes 3 40)
    ∧ calculate_pro_drop_end "friendly_hit" occurred_at
        = some (occurred_at + tdHoursMinutes 4 20)
    ∧ calculate_pro_drop_start "enemy_hit" occurred_at
        = some (occurred_at + tdHoursMinutes 3 40)
    ∧ calculate_pro_drop_end "enemy_hit" occurred_at
        = some (occurred_at + tdHoursMinutes 4 20)
    ∧ calculate_pro_drop_start "pro_whack" occurred_at
        = some (occurred_at + tdMinutes 15)
    ∧ calculate_pro_drop_end "pro_whack" occurred_at
        = some (occurred_at + tdMinutes 15) := by
  refine ⟨?_, ?_, ?_, ?_, ?_, ?_⟩ <;> rfl

/-- C7: for every timestamp and every `timer_type` outside the closed
enumeration {friendly_hit, enemy_hit, pro_whack}, both window validators
return `None` (and they are total: no exception is possible). -/
theorem c7_unknown_type_no_window (timer_type : String) (time_shot : Int)
    (h1 : timer_type ≠ "friendly_hit") (h2 : timer_type ≠ "enemy_hit")
    (h3 : timer_type ≠ "pro_whack") :
    calculate_pro_drop_start timer_type time_shot = none
    ∧ calculate_pro_drop_end timer_type time_shot = none := by
  constructor
  · simp [calculate_pro_drop_start, h1, h2, h3]
  · simp [calculate_pro_drop_end, h1, h2, h3]

/-- Witness for C7 at the concrete unknown type `"banana"`. -/
theorem c7_unknown_type_no_window_witness :
    calculate_pro_drop_start "banana" 0 = none
    ∧ calculate_pro_drop_end "banana" 0 = none :=
  c7_unknown_type_no_window "banana" 0 (by decide) (by decide) (by decide)

/-- C10: for every timer whose `timer_type` is in
{friendly_hit, enemy_hit, pro_whack}, both `pro_drop_start` and `pro_drop_end`
are defined, `pro_drop_start ≤ pro_drop_end`, and they are equal exactly when
`timer_type = "pro_whack"`. -/
theorem c10_window_order (timer_type : String) (time_shot : Int)
    (h : timer_type = "friendly_hit" ∨ timer_type = "enemy_hit"
        ∨ timer_type = "pro_whack") :
    ∃ s e, calculate_pro_drop_start timer_type time_shot = some s
      ∧ calculate_pro_drop_end timer_type time_shot = some e
      ∧ s ≤ e
      ∧ (s = e ↔ timer_type = "pro_whack") := by
  rcases h with h | h | h <;> subst h
  · exact ⟨_, _, rfl, rfl,
      by norm_num [tdHoursMinutes, usPerHour, usPerMinute, usPerSecond],
      ⟨fun hse => absurd hse
        (by norm_num [tdHoursMinutes, usPerHour, usPerMinute, usPerSecond]),
       fun hpw => absurd hpw (by decide)⟩⟩
  · exact ⟨_, _, rfl, rfl,
      by norm_num [tdHoursMinutes, usPerHour, usPerMinute, usPerSecond],
      ⟨fun hse => absurd hse
        (by norm_num [tdHoursMinutes, usPerHour, usPerMinute, usPerSecond]),
       fun hpw => absurd hpw (by decide)⟩⟩
  · exact ⟨_, _, rfl, rfl, le_refl _, by simp⟩

/-- Witness for C10 at the concrete type `"friendly_hit"` and `time_shot = 0`. -/
theorem c10_window_order_witness :
    ∃ s e, calculate_pro_drop_start "friendly_hit" 0 = some s
      ∧ calculate_pro_drop_end "friendly_hit" 0 = some e
      ∧ s ≤ e
      ∧ (s = e ↔ ("friendly_hit" : String) = "pro_whack") :=
  c10_window_order "friendly_hit" 0 (Or.inl rfl)

/-! ## Claim C6: combining a wall-clock time-of-day with today's date
(bot.py `im_hit` lines 278-293, `pro_whack`, `enemy_hit`; timer_app.py
`TimerApp.add_timer` lines 307-330 — all four use the identical arithmetic) -/

/-- Midnight (UTC) of the day containing `now`: what
`now.replace(hour=0, minute=0, second=0, microsecond=0)` denotes. -/
def floorDay (now : Int) : Int := now - now % usPerDay

/-- bot.py lines 281-286 / timer_app.py lines 312-322: given `now` and a
parsed time-of-day `tod` (microseconds since midnight, whole seconds),
`now.replace(hour=.., minute=.., second=.., microsecond=0)` gives
`floorDay now + tod`; if that is strictly in the future, one day is
subtracted. -/
def combine_with_today (now tod : Int) : Int :=
  let time_shot := floorDay now + tod
  if time_shot > now then time_shot - usPerDay else time_shot

theorem usPerDay_pos : 0 < usPerDay := by
  norm_num [usPerDay, usPerHour, usPerMinute, usPerSecond]

/-- C6: for a recording call that supplies only a wall-clock time-of-day
`tod` (with `0 ≤ tod < usPerDay`), the stored `time_shot` combines `tod` with
today's UTC date; exactly one day is subtracted when that combination is
strictly later than `now`; the result is never later than `now`; and the
result still has time-of-day `tod` (so "23:00 requested at 01:00" is stored
as 23:00 of the previous day). -/
theorem c6_day_rollover (now tod : Int) (h0 : 0 ≤ tod) (h1 : tod < usPerDay) :
    combine_with_today now tod ≤ now
    ∧ (floorDay now + tod > now →
        combine_with_today now tod = floorDay now + tod - usPerDay)
    ∧ combine_with_today now tod % usPerDay = tod := by
  have hd : (usPerDay : Int) ≠ 0 := ne_of_gt usPerDay_pos
  have hmod0 : 0 ≤ now % usPerDay := Int.emod_nonneg now hd
  have hfloor : floorDay now ≤ now := by
    simp only [floorDay]
    omega
  have hfmod : floorDay now % usPerDay = 0 := by
    simp [floorDay, Int.sub_emod, Int.emod_emod_of_dvd]
  have htodmod : tod % usPerDay = tod := Int.emod_emod_of_dvd tod dvd_rfl ▸
    Int.emod_eq_of_lt h0 h1
  refine ⟨?_, ?_, ?_⟩
  · simp only [combine_with_today]
    split
    · omega
    · omega
  · intro hfut
    simp only [combine_with_today]
    split
    · rfl
    · omega
  · simp only [combine_with_today]
    split
    · rw [show floorDay now + tod - usPerDay
          = floorDay now + tod + (-1) * usPerDay by ring,
        Int.add_mul_emod_self, Int.add_emod, hfmod, htodmod]
      simpa using htodmod
    · rw [Int.add_emod, hfmod, htodmod]
      simpa using htodmod

/-- Witness for C6: recording "23:00" at `now` = 01:00 of day 1 (epoch +
1 day + 1 hour) stores 23:00 of day 0, which is `≤ now`. -/
theorem c6_day_rollover_witness :
    combine_with_today (usPerDay + usPerHour) (23 * usPerHour) ≤ usPerDay + usPerHour
    ∧ (floorDay (usPerDay + usPerHour) + 23 * usPerHour > usPerDay + usPerHour →
        combine_with_today (usPerDay + usPerHour) (23 * usPerHour)
          = floorDay (usPerDay + usPerHour) + 23 * usPerHour - usPerDay)
    ∧ combine_with_today (usPerDay + usPerHour) (23 * usPerHour) % usPerDay
        = 23 * usPerHour :=
  c6_day_rollover (usPerDay + usPerHour) (23 * usPerHour)
    (by norm_num [usPerHour, usPerMinute, usPerSecond])
    (by norm_num [usPerDay, usPerHour, usPerMinute, usPerSecond])

/-! ## Claim C5: the retrying network client
(bot.py `make_api_request_with_retry`, lines 40-70) -/

/-- Outcome of one `requests.post` attempt. -/
inductive ReqOutcome where
  /-- A response came back, with this HTTP status (including 4xx/5xx). -/
  | response (status : Nat)
  /-- `requests.ConnectionError` or `requests.Timeout`. -/
  | netError
  /-- Any other `requests.RequestException`. -/
  | otherError
  deriving DecidableEq, Repr

/-- How `make_api_request_with_retry` ends. -/
inductive RetryResult where
  /-- The function returned a response with this status. -/
  | response (status : Nat)
  /-- An exception propagated to the caller. -/
  | raised
  /-- The for-loop body never ran (only possible when `max_retries = 0`);
  Python then implicitly returns `None`. -/
  | fellThrough
  deriving DecidableEq, Repr

/-- The loop of bot.py lines 56-70, starting at attempt number `attempt`
with `fuel = max_retries - attempt` iterations remaining.  `outcomes n` is
what the `n`-th `requests.post` call does.  Returns the result together
with the list of `time.sleep` durations performed (seconds,
`wait_time = 2 ** attempt`). -/
def retryFrom (outcomes : Nat → ReqOutcome) (max_retries : Nat) :
    Nat → Nat → RetryResult × List Nat
  | 0, _ => (.fellThrough, [])
  | fuel + 1, attempt =>
    match outcomes attempt with
    | .response s => (.response s, [])
    | .otherError => (.raised, [])
    | .netError =>
      if attempt < max_retries - 1 then
        let r := retryFrom outcomes max_retries fuel (attempt + 1)
        (r.1, 2 ^ attempt :: r.2)
      else
        (.raised, [])

/-- bot.py `make_api_request_with_retry` (lines 40-70): run the attempt loop
from attempt 0.  The call sites all use the default `max_retries = 3`. -/
def make_api_request_with_retry (outcomes : Nat → ReqOutcome)
    (max_retries : Nat) : RetryResult × List Nat :=
  retryFrom outcomes max_retries max_retries 0

/-- C5 counterexample: when all three attempts hit a connection/timeout
failure, the waits actually performed are 1s and 2s only — the claimed wait
sequence "1s, 2s, 4s between attempts" never occurs (3 attempts have only 2
gaps; the code sleeps `2^attempt` only after non-final failed attempts). -/
theorem c5_counterexample :
    (make_api_request_with_retry (fun _ => .netError) 3).2 = [1, 2]
    ∧ (make_api_request_with_retry (fun _ => .netError) 3).2 ≠ [1, 2, 4]
    ∧ (make_api_request_with_retry (fun _ => .netError) 3).1 = .raised := by
  refine ⟨rfl, ?_, rfl⟩
  decide

/-- C5 amended: the client retries only on connection/timeout failure, makes
up to 3 attempts with waits of 1s then 2s between them (a 4s wait would need
a fourth attempt), raises to the caller after the final failed attempt, and
returns any HTTP response (including 4xx/5xx) as-is from the attempt that
produced it, without retrying. -/
theorem c5_retry_contract (outcomes : Nat → ReqOutcome) (s : Nat) :
    (outcomes 0 = .response s →
        make_api_request_with_retry outcomes 3 = (.response s, []))
    ∧ (outcomes 0 = .otherError →
        make_api_request_with_retry outcomes 3 = (.raised, []))
    ∧ (outcomes 0 = .netError → outcomes 1 = .response s →
        make_api_request_with_retry outcomes 3 = (.response s, [1]))
    ∧ (outcomes 0 = .netError → outcomes 1 = .netError →
        outcomes 2 = .response s →
        make_api_request_with_retry outcomes 3 = (.response s, [1, 2]))
    ∧ (outcomes 0 = .netError → outcomes 1 = .netError →
        outcomes 2 = .netError →
        make_api_request_with_retry outcomes 3 = (.raised, [1, 2])) := by
  refine ⟨?_, ?_, ?_, ?_, ?_⟩ <;> intros <;>
    simp_all [make_api_request_with_retry, retryFrom]

/-- Witness for C5: a 404 response on the first attempt is returned as-is
with no retries and no waits. -/
theorem c5_retry_contract_witness :
    make_api_request_with_retry (fun _ => .response 404) 3
      = (.response 404, []) :=
  (c5_retry_contract (fun _ => .response 404) 404).1 rfl

/-! ## Claim C4: the snapshot fetch (bot.py `get_timers_from_api`,
lines 73-90) -/

/-- Outcome of the single `requests.get` inside `get_timers_from_api`. -/
inductive FetchOutcome where
  /-- A response came back with this status and (decoded JSON) body. -/
  | response (status : Nat) (body : List TimerR)
  /-- Any exception during the fetch (connection, timeout, decode, ...). -/
  | raised
  deriving Repr

/-- bot.py `get_timers_from_api` (lines 73-90): one `requests.get` (no retry
helper is used); on status 200 return the body, on any other status log and
return `[]`, on any exception log and return `[]`.  The function keeps no
state between calls. -/
def get_timers_from_api : FetchOutcome → List TimerR
  | .response status body => if status = 200 then body else []
  | .raised => []

/-- Two consecutive scheduler cycles: each calls `get_timers_from_api`
afresh; the module keeps no snapshot cache between cycles. -/
def consecutive_fetches (first second : FetchOutcome) :
    List TimerR × List TimerR :=
  (get_timers_from_api first, get_timers_from_api second)

/-- C4 counterexample: a successful fetch of one timer followed by a failed
fetch yields `[]` on the second cycle, not the previous successful snapshot
`[⟨1, "alice", "friendly_hit", 0⟩]` — the code caches nothing. -/
theorem c4_counterexample :
    consecutive_fetches
        (.response 200 [⟨1, "alice", "friendly_hit", 0⟩]) .raised
      = ([⟨1, "alice", "friendly_hit", 0⟩], [])
    ∧ ([] : List TimerR) ≠ [⟨1, "alice", "friendly_hit", 0⟩] := by
  exact ⟨rfl, by decide⟩

/-- C4 amended: when the snapshot fetch fails (exception or non-200
response), `get_timers_from_api` returns the empty list — not a previous
snapshot, and with no retry (it performs exactly one attempt) — and never
raises to the scheduling loop (it is total, every outcome yields a list);
on a 200 response it returns the decoded body. -/
theorem c4_fetch_failure (status : Nat) (body : List TimerR) :
    (status ≠ 200 → get_timers_from_api (.response status body) = [])
    ∧ get_timers_from_api .raised = []
    ∧ get_timers_from_api (.response 200 body) = body := by
  refine ⟨fun h => ?_, rfl, rfl⟩
  simp [get_timers_from_api, h]

/-- Witness for C4 amended: a 500 response yields the empty list. -/
theorem c4_fetch_failure_witness :
    get_timers_from_api (.response 500 [⟨1, "alice", "friendly_hit", 0⟩]) = [] :=
  (c4_fetch_failure 500 [⟨1, "alice", "friendly_hit", 0⟩]).1 (by decide)

/-! ## The alert scheduler (bot.py `check_pro_drop_alerts`, lines 195-251)

The 30-second task body: fetch a snapshot, walk it once, dispatch an alert
for each timer whose Pro Drop start is 5-10 minutes away and that has not
been alerted yet, then prune `alerted_timers` against the snapshot's id set.
The whole body sits in one `try`/`except`, so an exception raised by
`channel.send` abandons the rest of the loop *and* the prune for that tick.

The environment (channel configuration, channel lookup, whether a given
send raises) is passed explicitly. -/

/-- Environment of the alert loop: the configured channels, which channel
ids `bot.get_channel` resolves, and which timer's `channel.send` raises a
transport error. -/
structure BotEnv where
  ALERT_CHANNEL_ID : Option Int
  dashboard_channel_id : Option Int
  get_channel : Int → Bool
  send_fails : Int → Bool

/-- Python truthiness of an optional channel id (`None` and `0` are falsy). -/
def pyTruthy : Option Int → Bool
  | none => false
  | some c => c != 0

/-- bot.py lines 220-222: `alert_channel_id = ALERT_CHANNEL_ID or
dashboard_channel_id`, then `if not alert_channel_id: continue`. -/
def resolve_alert_channel (env : BotEnv) : Option Int :=
  match (if pyTruthy env.ALERT_CHANNEL_ID then env.ALERT_CHANNEL_ID
         else env.dashboard_channel_id) with
  | none => none
  | some c => if c = 0 then none else some c

/-- bot.py lines 233-240: the type-specific alert message (the `strftime`
rendering of the window start is abstracted away); an unrecognized
`timer_type` falls to the `else: continue` branch, modelled as `none`. -/
def alert_msg (timer_type user_name : String) (minutes_left : Int) :
    Option String :=
  if timer_type = "friendly_hit" then
    some s!"🔔 {user_name}, your Pro Drop (safe) window begins in {minutes_left} minutes!"
  else if timer_type = "pro_whack" then
    some s!"🔔 {user_name}, your Pro Drop is in {minutes_left} minutes!"
  else if timer_type = "enemy_hit" then
    some s!"🔔 {user_name}, enemy Pro Drop window begins in {minutes_left} minutes!"
  else
    none

/-- What the loop body (bot.py lines 204-244) does with one timer. -/
inductive StepDecision where
  /-- One of the `continue` paths: already alerted, no window, out of band,
  no configured channel, channel not found, or unknown type. -/
  | skip
  /-- The alert is sent successfully and the id is marked alerted. -/
  | dispatch
  /-- `channel.send` raises: the exception aborts the whole tick. -/
  | failSend
  deriving DecidableEq, Repr

/-- The per-timer decision of bot.py lines 204-244, in source order:
dedup check, `pro_drop_start` presence, the 5-10 minute band
(`timedelta(minutes=5) <= time_until <= timedelta(minutes=10)`, both
inclusive), channel resolution and lookup, message template, send.
The snapshot's `pro_drop_start` field is exactly
`calculate_pro_drop_start` of the record (it is the serialized
`TimerResponse` validator output). -/
def timer_step (env : BotEnv) (now : Int) (al : Finset Int) (t : TimerR) :
    StepDecision :=
  if t.id ∈ al then .skip
  else
    match calculate_pro_drop_start t.timer_type t.time_shot with
    | none => .skip
    | some pro_drop_time =>
      if tdMinutes 5 ≤ pro_drop_time - now ∧ pro_drop_time - now ≤ tdMinutes 10 then
        match resolve_alert_channel env with
        | none => .skip
        | some ch =>
          if env.get_channel ch then
            match alert_msg t.timer_type t.user_name
                ((pro_drop_time - now) / usPerMinute) with
            | none => .skip
            | some _ => if env.send_fails t.id then .failSend else .dispatch
          else .skip
      else .skip

/-- The `for timer in timers` loop (bot.py lines 204-244): returns the ids
dispatched in order, the dedup set after the loop, and whether an exception
aborted the loop (in which case the remaining timers are never examined and
ids dispatched so far stay marked). -/
def process_alerts (env : BotEnv) (now : Int) :
    List TimerR → Finset Int → List Int × Finset Int × Bool
  | [], al => ([], al, false)
  | t :: rest, al =>
    match timer_step env now al t with
    | .skip => process_alerts env now rest al
    | .failSend => ([], al, true)
    | .dispatch =>
      let r := process_alerts env now rest (insert t.id al)
      (t.id :: r.1, r.2)

/-- The id set of a snapshot (bot.py line 247:
`current_timer_ids = {t['id'] for t in timers}`). -/
def snapshot_ids (timers : List TimerR) : Finset Int :=
  (timers.map TimerR.id).toFinset

/-- One full tick of bot.py `check_pro_drop_alerts` (lines 195-251) on a
given snapshot: run the loop; if it completed, prune
(`alerted_timers = alerted_timers & current_timer_ids`, line 248); if an
exception aborted it, the `except` clause only logs, so no prune happens.
Returns (dispatched ids, dedup set after the tick). -/
def check_pro_drop_alerts (env : BotEnv) (now : Int) (timers : List TimerR)
    (alerted_timers : Finset Int) : List Int × Finset Int :=
  let r := process_alerts env now timers alerted_timers
  if r.2.2 then (r.1, r.2.1)
  else (r.1, r.2.1 ∩ snapshot_ids timers)

/-! ### Helper lemmas about the scheduler -/

/-- A timer with a defined window start always has a message template (the
two string enumerations agree). -/
theorem alert_msg_of_window (timer_type user_name : String) (m ts s : Int)
    (h : calculate_pro_drop_start timer_type ts = some s) :
    ∃ msg, alert_msg timer_type user_name m = some msg := by
  unfold calculate_pro_drop_start at h
  unfold alert_msg
  split_ifs at h ⊢ <;> simp_all

/-- An already-alerted timer is skipped (the dedup check comes first). -/
theorem timer_step_skip_of_mem (env : BotEnv) (now : Int) (al : Finset Int)
    (t : TimerR) (hmem : t.id ∈ al) : timer_step env now al t = .skip := by
  simp [timer_step, hmem]

/-- Sufficient conditions for a successful dispatch: not yet alerted,
window start defined and 5-10 minutes away, channel configured and found,
send does not raise. -/
theorem timer_step_dispatch_of (env : BotEnv) (now : Int) (al : Finset Int)
    (t : TimerR) (s ch : Int)
    (hmem : t.id ∉ al)
    (hcalc : calculate_pro_drop_start t.timer_type t.time_shot = some s)
    (hlo : tdMinutes 5 ≤ s - now) (hhi : s - now ≤ tdMinutes 10)
    (hres : resolve_alert_channel env = some ch)
    (hget : env.get_channel ch = true)
    (hsf : env.send_fails t.id = false) :
    timer_step env now al t = .dispatch := by
  obtain ⟨msg, hmsg⟩ := alert_msg_of_window t.timer_type t.user_name
    ((s - now) / usPerMinute) t.time_shot s hcalc
  simp [timer_step, hmem, hcalc, hlo, hhi, hres, hget, hmsg, hsf]

/-- Same conditions but the send raises: the step aborts the tick. -/
theorem timer_step_fail_of (env : BotEnv) (now : Int) (al : Finset Int)
    (t : TimerR) (s ch : Int)
    (hmem : t.id ∉ al)
    (hcalc : calculate_pro_drop_start t.timer_type t.time_shot = some s)
    (hlo : tdMinutes 5 ≤ s - now) (hhi : s - now ≤ tdMinutes 10)
    (hres : resolve_alert_channel env = some ch)
    (hget : env.get_channel ch = true)
    (hsf : env.send_fails t.id = true) :
    timer_step env now al t = .failSend := by
  obtain ⟨msg, hmsg⟩ := alert_msg_of_window t.timer_type t.user_name
    ((s - now) / usPerMinute) t.time_shot s hcalc
  simp [timer_step, hmem, hcalc, hlo, hhi, hres, hget, hmsg, hsf]

/-- A dispatch only happens for a fresh id whose window start is defined
and 5-10 minutes away. -/
theorem timer_step_dispatch_inv (env : BotEnv) (now : Int) (al : Finset Int)
    (t : TimerR) (h : timer_step env now al t = .dispatch) :
    t.id ∉ al
    ∧ ∃ s, calculate_pro_drop_start t.timer_type t.time_shot = some s
        ∧ tdMinutes 5 ≤ s - now ∧ s - now ≤ tdMinutes 10 := by
  unfold timer_step at h
  split at h
  · exact absurd h (by decide)
  · rename_i hmem
    split at h
    · exact absurd h (by decide)
    · rename_i s hc
      by_cases hband : tdMinutes 5 ≤ s - now ∧ s - now ≤ tdMinutes 10
      · exact ⟨hmem, s, hc, hband.1, hband.2⟩
      · rw [if_neg hband] at h
        exact absurd h (by decide)

/-- If no send raises, the loop never aborts at a single step. -/
theorem timer_step_no_fail (env : BotEnv) (now : Int) (al : Finset Int)
    (t : TimerR) (hsf : ∀ i, env.send_fails i = false) :
    timer_step env now al t ≠ .failSend := by
  intro h
  unfold timer_step at h
  split at h
  · exact absurd h (by decide)
  · split at h
    · exact absurd h (by decide)
    · rename_i s hc
      by_cases hband : tdMinutes 5 ≤ s - now ∧ s - now ≤ tdMinutes 10
      · rw [if_pos hband] at h
        split at h
        · exact absurd h (by decide)
        · split at h
          · split at h
            · exact absurd h (by decide)
            · rw [hsf t.id] at h
              simp at h
          · exact absurd h (by decide)
      · rw [if_neg hband] at h
        exact absurd h (by decide)

/-- The dedup set only grows during the loop (ids already marked stay
marked, whether or not the loop aborts). -/
theorem process_alerts_mem_mono (env : BotEnv) (now : Int) :
    ∀ (ts : List TimerR) (al : Finset Int) (i : Int),
      i ∈ al → i ∈ (process_alerts env now ts al).2.1 := by
  intro ts
  induction ts with
  | nil => intro al i h; simpa [process_alerts] using h
  | cons t rest ih =>
    intro al i h
    simp only [process_alerts]
    split
    · exact ih al i h
    · exact h
    · exact ih _ i (Finset.mem_insert_of_mem h)

/-- An id already in the dedup set is never dispatched by the loop. -/
theorem process_alerts_no_refire (env : BotEnv) (now : Int) :
    ∀ (ts : List TimerR) (al : Finset Int) (i : Int),
      i ∈ al → i ∉ (process_alerts env now ts al).1 := by
  intro ts
  induction ts with
  | nil => intro al i h; simp [process_alerts]
  | cons t rest ih =>
    intro al i h
    simp only [process_alerts]
    split
    · exact ih al i h
    · simp
    · rename_i hstep
      have hne : t.id ≠ i := by
        intro he
        exact (timer_step_dispatch_inv env now al t hstep).1 (he ▸ h)
      simp only [List.mem_cons, not_or]
      exact ⟨fun he => hne he.symm, ih _ i (Finset.mem_insert_of_mem h)⟩

/-- Every dispatched id was fresh at the start of the loop and belongs to a
snapshot timer whose window start is defined and 5-10 minutes away. -/
theorem process_alerts_sent_inv (env : BotEnv) (now : Int) :
    ∀ (ts : List TimerR) (al : Finset Int) (i : Int),
      i ∈ (process_alerts env now ts al).1 →
      i ∉ al
      ∧ ∃ t ∈ ts, t.id = i
          ∧ ∃ s, calculate_pro_drop_start t.timer_type t.time_shot = some s
              ∧ tdMinutes 5 ≤ s - now ∧ s - now ≤ tdMinutes 10 := by
  intro ts
  induction ts with
  | nil => intro al i h; simp [process_alerts] at h
  | cons t rest ih =>
    intro al i h
    simp only [process_alerts] at h
    split at h
    · obtain ⟨hal, u, hu, rest'⟩ := ih al i h
      exact ⟨hal, u, List.mem_cons_of_mem t hu, rest'⟩
    · simp at h
    · rename_i hstep
      obtain ⟨hmem, s, hcalc, hlo, hhi⟩ := timer_step_dispatch_inv env now al t hstep
      rcases List.mem_cons.mp h with he | hr
      · exact ⟨he ▸ hmem, t, List.mem_cons_self t rest, he.symm, s, hcalc, hlo, hhi⟩
      · obtain ⟨hal, u, hu, rest'⟩ := ih _ i hr
        exact ⟨fun hin => hal (Finset.mem_insert_of_mem hin),
          u, List.mem_cons_of_mem t hu, rest'⟩

/-- If no send raises, the loop never aborts. -/
theorem process_alerts_no_abort (env : BotEnv) (now : Int)
    (hsf : ∀ i, env.send_fails i = false) :
    ∀ (ts : List TimerR) (al : Finset Int),
      (process_alerts env now ts al).2.2 = false := by
  intro ts
  induction ts with
  | nil => intro al; simp [process_alerts]
  | cons t rest ih =>
    intro al
    simp only [process_alerts]
    split
    · exact ih al
    · rename_i hstep
      exact absurd hstep (timer_step_no_fail env now al t hsf)
    · exact ih _

/-- If no send raises and a channel resolves, an eligible fresh timer in the
snapshot is dispatched during the loop and its id is marked afterwards. -/
theorem process_alerts_fires (env : BotEnv) (now : Int) (ch : Int)
    (hres : resolve_alert_channel env = some ch)
    (hget : env.get_channel ch = true)
    (hsf : ∀ i, env.send_fails i = false) :
    ∀ (ts : List TimerR) (al : Finset Int) (t : TimerR) (s : Int),
      t ∈ ts → t.id ∉ al →
      calculate_pro_drop_start t.timer_type t.time_shot = some s →
      tdMinutes 5 ≤ s - now → s - now ≤ tdMinutes 10 →
      t.id ∈ (process_alerts env now ts al).1
      ∧ t.id ∈ (process_alerts env now ts al).2.1 := by
  intro ts
  induction ts with
  | nil => intro al t s h; simp at h
  | cons u rest ih =>
    intro al t s hmem hal hcalc hlo hhi
    rcases List.mem_cons.mp hmem with he | hr
    · subst he
      have hstep := timer_step_dispatch_of env now al t s ch hal hcalc hlo hhi
        hres hget (hsf t.id)
      simp only [process_alerts, hstep]
      exact ⟨List.mem_cons_self _ _,
        process_alerts_mem_mono env now rest _ t.id (Finset.mem_insert_self _ _)⟩
    · simp only [process_alerts]
      split
      · exact ih al t s hr hal hcalc hlo hhi
      · rename_i hstep
        exact absurd hstep (timer_step_no_fail env now al u hsf)
      · rename_i hstep
        by_cases hid : u.id = t.id
        · refine ⟨hid ▸ List.mem_cons_self _ _, ?_⟩
          exact process_alerts_mem_mono env now rest _ t.id
            (hid ▸ Finset.mem_insert_self _ _)
        · have := ih _ t s hr
            (fun hin => (Finset.mem_insert.mp hin).elim (fun h => hid h.symm) hal)
            hcalc hlo hhi
          exact ⟨List.mem_cons_of_mem _ this.1, this.2⟩

/-- The dispatched list is the same whether or not the tick was aborted
(the prune only affects the dedup set). -/
theorem check_sent_eq (env : BotEnv) (now : Int) (timers : List TimerR)
    (al : Finset Int) :
    (check_pro_drop_alerts env now timers al).1
      = (process_alerts env now timers al).1 := by
  simp only [check_pro_drop_alerts]
  split <;> rfl

/-! ### Concrete inputs for witnesses and counterexamples -/

/-- An environment with a configured, resolvable alert channel whose sends
always succeed. -/
def envOk : BotEnv := ⟨some 5, none, fun _ => true, fun _ => false⟩

/-- Same channel configuration, but sending the alert for timer id 1
raises a transport error. -/
def envSendFail : BotEnv := ⟨some 5, none, fun _ => true, fun i => i == 1⟩

/-- A friendly-hit timer recorded at the epoch. -/
def aliceTimer : TimerR := ⟨1, "alice", "friendly_hit", 0⟩

/-- A second friendly-hit timer recorded at the epoch. -/
def bobTimer : TimerR := ⟨2, "bob", "friendly_hit", 0⟩

/-- A tick 3h30m after the epoch: both timers' windows start in exactly
10 minutes, the inclusive upper edge of the firing band. -/
def nowTick : Int := tdHoursMinutes 3 30

/-! ### Claims C2, C3, C8 -/

/-- C2: within a tick whose environment has a resolvable alert channel and
whose sends succeed, (a) every snapshot timer with a defined window start
5-10 minutes away (inclusive) that is not yet in the dedup set is dispatched
and ends the tick in the dedup set; (b) an id already in the dedup set is
never dispatched again; (c) only fresh, in-band timers with a defined window
start are ever dispatched.  Over a run of ticks this makes the alert fire at
exactly the first tick at which the band condition holds with the id not yet
tracked, and never again while the id stays tracked. -/
theorem c2_alert_fire_once (env : BotEnv) (now : Int) (timers : List TimerR)
    (alerted : Finset Int) (ch : Int)
    (hres : resolve_alert_channel env = some ch)
    (hget : env.get_channel ch = true)
    (hsf : ∀ i, env.send_fails i = false) :
    (∀ t ∈ timers, t.id ∉ alerted →
      ∀ s, calculate_pro_drop_start t.timer_type t.time_shot = some s →
        tdMinutes 5 ≤ s - now → s - now ≤ tdMinutes 10 →
        t.id ∈ (check_pro_drop_alerts env now timers alerted).1
        ∧ t.id ∈ (check_pro_drop_alerts env now timers alerted).2)
    ∧ (∀ i ∈ alerted, i ∉ (check_pro_drop_alerts env now timers alerted).1)
    ∧ (∀ i ∈ (check_pro_drop_alerts env now timers alerted).1,
        i ∉ alerted ∧ ∃ t ∈ timers, t.id = i
          ∧ ∃ s, calculate_pro_drop_start t.timer_type t.time_shot = some s
              ∧ tdMinutes 5 ≤ s - now ∧ s - now ≤ tdMinutes 10) := by
  have hnoab := process_alerts_no_abort env now hsf timers alerted
  have h2 : (check_pro_drop_alerts env now timers alerted).2
      = (process_alerts env now timers alerted).2.1 ∩ snapshot_ids timers := by
    simp [check_pro_drop_alerts, hnoab]
  refine ⟨?_, ?_, ?_⟩
  · intro t ht hal s hcalc hlo hhi
    have hf := process_alerts_fires env now ch hres hget hsf timers alerted t s
      ht hal hcalc hlo hhi
    refine ⟨check_sent_eq env now timers alerted ▸ hf.1, ?_⟩
    rw [h2]
    exact Finset.mem_inter.mpr ⟨hf.2,
      List.mem_toFinset.mpr (List.mem_map_of_mem TimerR.id ht)⟩
  · intro i hi
    rw [check_sent_eq]
    exact process_alerts_no_refire env now timers alerted i hi
  · intro i hi
    rw [check_sent_eq] at hi
    exact process_alerts_sent_inv env now timers alerted i hi

/-- Witness for C2 (the spec's Scenario 1): a friendly hit at the epoch,
evaluated at 3h30m with an empty dedup set, is dispatched and tracked; and
with the id already tracked it is not dispatched. -/
theorem c2_alert_fire_once_witness :
    ((∀ t ∈ [aliceTimer], t.id ∉ (∅ : Finset Int) →
      ∀ s, calculate_pro_drop_start t.timer_type t.time_shot = some s →
        tdMinutes 5 ≤ s - nowTick → s - nowTick ≤ tdMinutes 10 →
        t.id ∈ (check_pro_drop_alerts envOk nowTick [aliceTimer] ∅).1
        ∧ t.id ∈ (check_pro_drop_alerts envOk nowTick [aliceTimer] ∅).2)
    ∧ (∀ i ∈ (∅ : Finset Int),
        i ∉ (check_pro_drop_alerts envOk nowTick [aliceTimer] ∅).1)
    ∧ (∀ i ∈ (check_pro_drop_alerts envOk nowTick [aliceTimer] ∅).1,
        i ∉ (∅ : Finset Int) ∧ ∃ t ∈ [aliceTimer], t.id = i
          ∧ ∃ s, calculate_pro_drop_start t.timer_type t.time_shot = some s
              ∧ tdMinutes 5 ≤ s - nowTick ∧ s - nowTick ≤ tdMinutes 10)) :=
  c2_alert_fire_once envOk nowTick [aliceTimer] ∅ 5 rfl rfl (fun _ => rfl)

/-- C3: whenever the loop completes (no dispatch raised), the tick ends with
the prune, after which the dedup set is a subset of the snapshot's id set;
in particular every tracked id absent from the snapshot — e.g. a timer
deleted before its alert fired — is removed. -/
theorem c3_prune_subset (env : BotEnv) (now : Int) (timers : List TimerR)
    (alerted : Finset Int)
    (hcomplete : (process_alerts env now timers alerted).2.2 = false) :
    (check_pro_drop_alerts env now timers alerted).2 ⊆ snapshot_ids timers
    ∧ ∀ i ∈ alerted, i ∉ snapshot_ids timers →
        i ∉ (check_pro_drop_alerts env now timers alerted).2 := by
  have h2 : (check_pro_drop_alerts env now timers alerted).2
      = (process_alerts env now timers alerted).2.1 ∩ snapshot_ids timers := by
    simp [check_pro_drop_alerts, hcomplete]
  rw [h2]
  exact ⟨Finset.inter_subset_right,
    fun i _ hnot hmem => hnot (Finset.mem_of_mem_inter_right hmem)⟩

/-- Witness for C3 (the spec's Scenario 3): with stale id 99 tracked but
absent from the snapshot `[aliceTimer]`, the tick's prune removes it. -/
theorem c3_prune_subset_witness :
    ((check_pro_drop_alerts envOk nowTick [aliceTimer] {99}).2
        ⊆ snapshot_ids [aliceTimer]
    ∧ ∀ i ∈ ({99} : Finset Int), i ∉ snapshot_ids [aliceTimer] →
        i ∉ (check_pro_drop_alerts envOk nowTick [aliceTimer] {99}).2) :=
  c3_prune_subset envOk nowTick [aliceTimer] {99} (by decide)

/-- C8 counterexample: at `nowTick` both timers are eligible and id 99 is
stale in the dedup set; the send for timer 1 raises.  The tick then neither
dispatches timer 2 nor prunes 99 — the exception aborts the rest of the
cycle, contradicting the claim that other events are still evaluated and the
prune still runs. -/
theorem c8_counterexample :
    2 ∉ (check_pro_drop_alerts envSendFail nowTick [aliceTimer, bobTimer] {99}).1
    ∧ (99 : Int) ∈
        (check_pro_drop_alerts envSendFail nowTick [aliceTimer, bobTimer] {99}).2
    ∧ ¬ (check_pro_drop_alerts envSendFail nowTick [aliceTimer, bobTimer] {99}).2
        ⊆ snapshot_ids [aliceTimer, bobTimer] := by
  decide

/-- C8 amended: dispatch is not fire-and-forget within the tick — a
transport error is caught (and logged) only by the tick's outer exception
handler, which abandons the remainder of the cycle.  (i) When every dispatch
succeeds, the loop completes and the prune runs, leaving the dedup set a
subset of the snapshot's ids.  (ii) When the dispatch for the first eligible
timer raises, the tick ends immediately: nothing is dispatched (later
snapshot events are never evaluated) and the dedup set is left exactly as it
was — unpruned. -/
theorem c8_dispatch_error_aborts_tick (env : BotEnv) (now : Int) :
    (∀ timers alerted, (∀ i, env.send_fails i = false) →
        (process_alerts env now timers alerted).2.2 = false
        ∧ (check_pro_drop_alerts env now timers alerted).2
            ⊆ snapshot_ids timers)
    ∧ (∀ t rest alerted ch s, t.id ∉ alerted →
        calculate_pro_drop_start t.timer_type t.time_shot = some s →
        tdMinutes 5 ≤ s - now → s - now ≤ tdMinutes 10 →
        resolve_alert_channel env = some ch → env.get_channel ch = true →
        env.send_fails t.id = true →
        check_pro_drop_alerts env now (t :: rest) alerted = ([], alerted)) := by
  constructor
  · intro timers alerted hsf
    have hnoab := process_alerts_no_abort env now hsf timers alerted
    refine ⟨hnoab, ?_⟩
    have h2 : (check_pro_drop_alerts env now timers alerted).2
        = (process_alerts env now timers alerted).2.1 ∩ snapshot_ids timers := by
      simp [check_pro_drop_alerts, hnoab]
    rw [h2]
    exact Finset.inter_subset_right
  · intro t rest alerted ch s hmem hcalc hlo hhi hres hget hfail
    have hstep := timer_step_fail_of env now alerted t s ch hmem hcalc hlo hhi
      hres hget hfail
    have hp : process_alerts env now (t :: rest) alerted = ([], alerted, true) := by
      simp [process_alerts, hstep]
    simp [check_pro_drop_alerts, hp]

/-- Witness for C8 amended: part (i) on the all-sends-succeed environment;
part (ii) on the environment where the send for timer 1 raises, with an
eligible `bobTimer` next in the snapshot and stale id 99 tracked. -/
theorem c8_dispatch_error_aborts_tick_witness :
    ((process_alerts envOk nowTick [aliceTimer] {99}).2.2 = false
      ∧ (check_pro_drop_alerts envOk nowTick [aliceTimer] {99}).2
          ⊆ snapshot_ids [aliceTimer])
    ∧ check_pro_drop_alerts envSendFail nowTick (aliceTimer :: [bobTimer]) {99}
        = ([], {99}) :=
  ⟨(c8_dispatch_error_aborts_tick envOk nowTick).1 [aliceTimer] {99}
      (fun _ => rfl),
   (c8_dispatch_error_aborts_tick envSendFail nowTick).2 aliceTimer [bobTimer]
      {99} 5 (tdHoursMinutes 3 40) (by decide) (by decide) (by decide)
      (by decide) (by decide) rfl rfl⟩

/-! ## Claim C9: the list endpoint (main.py `read_timers`, lines 82-110) -/

/-- main.py `read_timers` (lines 82-110): `limit = min(limit, 500)`, then
`db.query(Timer).offset(skip).limit(limit).all()`.  The query has **no**
`order_by`, so rows come back in the storage's default order — modelled
here as the list of rows in insertion (creation) order, oldest first. -/
def read_timers (db : List TimerR) (skip limit : Nat) : List TimerR :=
  (db.drop skip).take (min limit 500)

/-- C9 counterexample: with `aliceTimer` created before `bobTimer` and
`limit = 1`, the endpoint returns the **oldest** record `[aliceTimer]`, not
the most recent `[bobTimer]` — there is no recency ordering in the query. -/
theorem c9_counterexample :
    read_timers [aliceTimer, bobTimer] 0 1 = [aliceTimer]
    ∧ read_timers [aliceTimer, bobTimer] 0 1 ≠ [bobTimer] := by
  exact ⟨rfl, by decide⟩

/-- C9 amended: the endpoint returns at most `min(N, 500)` records, and the
records returned are a contiguous run of the stored sequence in storage
(insertion) order starting after the first `skip` rows — not the most
recent ones. -/
theorem c9_limit_cap (db : List TimerR) (skip limit : Nat) :
    (read_timers db skip limit).length ≤ min limit 500
    ∧ db = db.take skip ++ read_timers db skip limit
        ++ (db.drop skip).drop (min limit 500) := by
  constructor
  · simp [read_timers]
  · rw [read_timers, List.append_assoc, List.take_append_drop,
      List.take_append_drop]

end Warbot
